import Mathlib

/-
Verification of the analytics-zoo `InferenceModel` facade
(`pyzoo/zoo/pipeline/inference/inference_model.py`) against its
natural-language specification.

The Python layer is a thin dispatcher: every `load*` / `predict` method
validates and normalizes its parameters and forwards exactly one
`callBigDlFunc(bigdl_type, method, self.value, ...)` call to the external
engine.  We embed each method as a pure function from its parameters to
`Except ZooError EngineCall`: the `ok` case records the single engine call
(method name plus ordered arguments) the Python code would forward, the
`error` case records the exception raised before any engine call is made.

Error names follow the spec taxonomy (section 7): the `raise Exception`
for the malformed openvino configuration is `configurationError`, the
`raise ValueError` for an unrecognized backend is `unsupportedBackendError`,
and a failed `float(...)` coercion is `configurationError`.
-/

namespace AnalyticsZoo

/-- Python runtime values that appear as arguments of engine calls.
Python `None` is `pyNone`; numeric floats are modelled as rationals.
The only list-valued arguments the source ever forwards are the integer
`input_shape` and the float `mean_values`, so those two list shapes get
dedicated constructors. -/
inductive PyVal where
| pyNone
| pyStr (s : String)
| pyInt (n : Int)
| pyBool (b : Bool)
| pyFloat (q : Rat)
| pyIntList (xs : List Int)
| pyFloatList (xs : List Rat)
deriving DecidableEq, Repr

/-- One call across the engine boundary: the BigDL function name together
with the ordered argument list that follows `self.value`. -/
structure EngineCall where
  method : String
  args : List PyVal
deriving DecidableEq, Repr

/-- Error taxonomy of the spec (section 7). -/
inductive ZooError where
| configurationError (msg : String)
| unsupportedBackendError (msg : String)
| alreadyLoadedError
| notLoadedError
| engineError (msg : String)
deriving DecidableEq, Repr

/-- An optional Python string passed through as an engine-call argument:
`None` stays `None`, a string stays a string. -/
def optStrVal : Option String → PyVal
| Option.none => PyVal.pyNone
| Option.some s => PyVal.pyStr s

/-- Python truthiness of an optional string (`if model_type:`):
`None` and the empty string are falsy, every other string is truthy. -/
def pyTruthy : Option String → Bool
| Option.none => false
| Option.some s => !(s == "")

/-- Python `str.lower()` restricted to the ASCII arguments used here. -/
def pyLower (s : String) : String := ⟨s.data.map Char.toLower⟩

/-- Embedding of `InferenceModel.load_tf`.  Mirrors the source line by
line: lower-case the backend; the tensorflow branch forwards the three
threading parameters; the openvino branch tests `model_type` and
`ov_pipeline_config_path` for truthiness and raises only when both
`ov_pipeline_config_path` and `ov_extensions_config_path` are `None`. -/
def load_tf (model_path backend : String)
    (intra_op_parallelism_threads inter_op_parallelism_threads : Int)
    (use_per_session_threads : Bool)
    (model_type ov_pipeline_config_path ov_extensions_config_path : Option String) :
    Except ZooError EngineCall :=
  let b := pyLower backend
  if b = "tensorflow" ∨ b = "tf" then
    Except.ok ⟨"inferenceModelTensorFlowLoadTF",
      [PyVal.pyStr model_path, PyVal.pyInt intra_op_parallelism_threads,
       PyVal.pyInt inter_op_parallelism_threads, PyVal.pyBool use_per_session_threads]⟩
  else if b = "openvino" ∨ b = "ov" then
    if pyTruthy model_type then
      if pyTruthy ov_pipeline_config_path then
        Except.ok ⟨"inferenceModelOpenVINOLoadTF",
          [PyVal.pyStr model_path, optStrVal model_type,
           optStrVal ov_pipeline_config_path, PyVal.pyNone]⟩
      else
        Except.ok ⟨"inferenceModelOpenVINOLoadTF",
          [PyVal.pyStr model_path, optStrVal model_type]⟩
    else
      if ov_pipeline_config_path = Option.none ∧ ov_extensions_config_path = Option.none then
        Except.error (ZooError.configurationError
          "For openvino backend, you must provide either model_type or both pipeline_config_path and extensions_config_path")
      else
        Except.ok ⟨"inferenceModelOpenVINOLoadTF",
          [PyVal.pyStr model_path, optStrVal ov_pipeline_config_path,
           optStrVal ov_extensions_config_path]⟩
  else
    Except.error (ZooError.unsupportedBackendError
      "Currently only tensorflow and openvino are supported as backend")

/-- The list comprehension `[float(value) for value in mean_values]`.
The Python builtin `float` is external to the repository, so the
embedding is parametric in the coercion `pyfloat : A -> Option Rat`
(`Option.none` meaning the coercion raises); the comprehension raises as
soon as one element fails to coerce. -/
def pyFloats {A : Type} (pyfloat : A → Option Rat) : List A → Option (List Rat)
| [] => Option.some []
| x :: xs =>
  match pyfloat x with
  | Option.none => Option.none
  | Option.some q =>
    match pyFloats pyfloat xs with
    | Option.none => Option.none
    | Option.some qs => Option.some (q :: qs)

/-- Embedding of `InferenceModel.load_tf_image_classification_as_openvino`.
The Python builds `[float(value) for value in mean_values]` and
`float(scale)` while assembling the argument list, so a value that
`float` cannot coerce raises before any engine call. -/
def load_tf_image_classification_as_openvino {A : Type} (pyfloat : A → Option Rat)
    (model_path image_classification_model_type checkpoint_path : String)
    (input_shape : List Int) (if_reverse_input_channels : Bool)
    (mean_values : List A) (scale : A) : Except ZooError EngineCall :=
  match pyFloats pyfloat mean_values with
  | Option.none =>
      Except.error (ZooError.configurationError "could not convert value to float")
  | Option.some ms =>
    match pyfloat scale with
    | Option.none =>
        Except.error (ZooError.configurationError "could not convert value to float")
    | Option.some q =>
        Except.ok ⟨"inferenceModelOpenVINOLoadTF",
          [PyVal.pyStr model_path, PyVal.pyStr image_classification_model_type,
           PyVal.pyStr checkpoint_path, PyVal.pyIntList input_shape,
           PyVal.pyBool if_reverse_input_channels,
           PyVal.pyFloatList ms, PyVal.pyFloat q]⟩

/-- Embedding of `InferenceModel.load_tf_as_calibrated_openvino`, with the
same parametric treatment of the `float` coercion. -/
def load_tf_as_calibrated_openvino {A : Type} (pyfloat : A → Option Rat)
    (model_path model_type checkpoint_path : String)
    (input_shape : List Int) (if_reverse_input_channels : Bool)
    (mean_values : List A) (scale : A)
    (network_type validation_file_path subset opencv_lib_path : String) :
    Except ZooError EngineCall :=
  match pyFloats pyfloat mean_values with
  | Option.none =>
      Except.error (ZooError.configurationError "could not convert value to float")
  | Option.some ms =>
    match pyfloat scale with
    | Option.none =>
        Except.error (ZooError.configurationError "could not convert value to float")
    | Option.some q =>
        Except.ok ⟨"inferenceModelOpenVINOLoadTFAsCalibratedOpenVINO",
          [PyVal.pyStr model_path, PyVal.pyStr model_type,
           PyVal.pyStr checkpoint_path, PyVal.pyIntList input_shape,
           PyVal.pyBool if_reverse_input_channels,
           PyVal.pyFloatList ms, PyVal.pyFloat q,
           PyVal.pyStr network_type, PyVal.pyStr validation_file_path,
           PyVal.pyStr subset, PyVal.pyStr opencv_lib_path]⟩

/-- The closed set of backend kinds of the spec data model (section 3). -/
inductive BackendKind where
| nativeCheckpoint
| caffeKind
| tensorFlowKind
| openVINOKind
| openVINOInt8
| openVINOFromTensorFlow
deriving DecidableEq, Repr

/-- The backend-binding state of a handle: `unloaded` until the first
successful load, then `loaded k` forever. -/
inductive BackendState where
| unloaded
| loaded (k : BackendKind)
deriving DecidableEq, Repr

/-- A model handle: the concurrency limit fixed at construction and the
backend-binding state. -/
structure ModelHandle where
  concurrency_limit : Int
  backend_state : BackendState
deriving DecidableEq, Repr

/-- Modelled from the spec: the constructor validation of
`InferenceModel.__init__`.  The Python constructor only forwards
`supported_concurrent_num` to the external engine factory, which is not
under `src/`; the spec (sections 4.1 and 8) states that construction
fails with `ConfigurationError` for `concurrency_limit < 1` and returns
an `Unloaded` handle otherwise. -/
def mkInferenceModel (supported_concurrent_num : Int) : Except ZooError ModelHandle :=
  if 1 ≤ supported_concurrent_num then
    Except.ok ⟨supported_concurrent_num, BackendState.unloaded⟩
  else
    Except.error (ZooError.configurationError "supported_concurrent_num must be at least 1")

/-- Modelled from the spec: the engine-side `Unloaded -> Loaded` transition
behind every `load*` method.  The Python methods forward unconditionally
to the engine, whose state machine is not under `src/`; the spec
(sections 3, 4.1 and 8) states that a load on an `Unloaded` handle binds
the backend once and a load on a `Loaded` handle fails with
`AlreadyLoadedError`, leaving the binding unchanged. -/
def ModelHandle.loadBackend (h : ModelHandle) (k : BackendKind) :
    Except ZooError ModelHandle :=
  match h.backend_state with
  | BackendState.unloaded =>
      Except.ok ⟨h.concurrency_limit, BackendState.loaded k⟩
  | BackendState.loaded _ => Except.error ZooError.alreadyLoadedError

/-- A predict input: a single tensor-like value or an ordered sequence of
them (the `input_is_table` distinction of `Layer.check_input`). -/
inductive PredictIn (A : Type) where
| single (t : A)
| seq (ts : List A)
deriving DecidableEq, Repr

/-- Modelled from the spec: the engine-side guard of `predict`.  The
Python `predict` forwards unconditionally to `inferenceModelPredict`; the
guard lives in the engine, not under `src/`; the spec (sections 4.1 and 8)
states that `predict` on an `Unloaded` handle fails with `NotLoadedError`
before any gateway call, and otherwise forwards one predict call. -/
def ModelHandle.predictGate {A : Type} (h : ModelHandle) (inputs : PredictIn A) :
    Except ZooError (String × PredictIn A) :=
  match h.backend_state with
  | BackendState.unloaded => Except.error ZooError.notLoadedError
  | BackendState.loaded _ => Except.ok ("inferenceModelPredict", inputs)

/-- Labels of the admission-gate transition system. -/
inductive GateLabel where
| gateAcquire
| gateFree
deriving DecidableEq, Repr

/-- Modelled from the spec: the admission gate bounding concurrent
`predict` calls (section 5), a counting semaphore of capacity `N` held on
the engine side, not under `src/`.  The state is the number of in-flight
predict calls; an acquire step admits a caller only when the gate is
below capacity (a caller at capacity blocks, taking no step), and a free
step is enabled whenever a call is in flight, on every exit path. -/
inductive gateStep (N : ℕ) : ℕ → GateLabel → ℕ → Prop where
| enter {k : ℕ} : k < N → gateStep N k GateLabel.gateAcquire (k + 1)
| finish {k : ℕ} : gateStep N (k + 1) GateLabel.gateFree k

/-- States of the admission gate reachable from the idle gate. -/
inductive gateReach (N : ℕ) : ℕ → Prop where
| init : gateReach N 0
| step {k j : ℕ} {l : GateLabel} : gateReach N k → gateStep N k l j → gateReach N j

/-- The float-coercion comprehension fails exactly when some element of
the list fails to coerce. -/
theorem pyFloats_eq_none_iff {A : Type} (f : A → Option Rat) (xs : List A) :
    pyFloats f xs = Option.none ↔ ∃ x ∈ xs, f x = Option.none := by
  induction xs with
  | nil => simp [pyFloats]
  | cons a as ih =>
    simp only [pyFloats]
    cases hfa : f a with
    | none =>
      exact ⟨fun _ => ⟨a, List.mem_cons_self a as, hfa⟩, fun _ => by trivial⟩
    | some q =>
      cases hmv : pyFloats f as with
      | none =>
        obtain ⟨x, hx, hfx⟩ := ih.1 hmv
        exact ⟨fun _ => ⟨x, List.mem_cons_of_mem a hx, hfx⟩, fun _ => by trivial⟩
      | some qs =>
        simp only [List.mem_cons]
        constructor
        · intro hcontra; cases hcontra
        · rintro ⟨x, hx | hx, hfx⟩
          · subst hx; rw [hfa] at hfx; cases hfx
          · exact absurd hmv (by rw [ih.2 ⟨x, hx, hfx⟩]; simp)

/-- A successful coercion comprehension returns the coerced values
pointwise, in the original order. -/
theorem pyFloats_get {A : Type} (f : A → Option Rat) :
    ∀ (xs : List A) (ys : List Rat), pyFloats f xs = Option.some ys →
      ∀ i : ℕ, ys.get? i = (xs.get? i).bind f := by
  intro xs
  induction xs with
  | nil =>
    intro ys h i
    simp only [pyFloats, Option.some_inj] at h
    subst h
    cases i <;> simp
  | cons a as ih =>
    intro ys h i
    simp only [pyFloats] at h
    cases hfa : f a with
    | none => rw [hfa] at h; cases h
    | some q =>
      rw [hfa] at h
      cases hmv : pyFloats f as with
      | none => rw [hmv] at h; cases h
      | some qs =>
        rw [hmv] at h
        simp only [Option.some_inj] at h
        subst h
        cases i with
        | zero => simp [hfa]
        | succ n => simpa using ih qs hmv n

/-- C1: with backend "openvino", no `model_type`, `ov_pipeline_config_path`
supplied and `ov_extensions_config_path` missing, `load_tf` forwards an
engine call built from the single supplied path instead of failing with
`ConfigurationError`.  The source raises only when BOTH paths are `None`
(`and` where its own docstring and error message require both paths, i.e.
`or`), so the sentence "if either one is missing, fail" is violated by the
code. -/
theorem load_tf_missing_extensions_path_forwarded :
    load_tf "m" "openvino" 1 1 true Option.none (Option.some "p") Option.none
      = Except.ok ⟨"inferenceModelOpenVINOLoadTF",
          [PyVal.pyStr "m", PyVal.pyStr "p", PyVal.pyNone]⟩ := rfl

/-- C2: constructing a handle with `supported_concurrent_num < 1` fails
with `ConfigurationError`, and with `supported_concurrent_num >= 1` it
succeeds and returns a handle in the `Unloaded` state. -/
theorem mkInferenceModel_validates_limit (n : Int) :
    (n < 1 → mkInferenceModel n
        = Except.error (ZooError.configurationError
            "supported_concurrent_num must be at least 1"))
  ∧ (1 ≤ n → mkInferenceModel n = Except.ok ⟨n, BackendState.unloaded⟩) := by
  constructor
  · intro h
    rw [mkInferenceModel, if_neg (by omega)]
  · intro h
    rw [mkInferenceModel, if_pos h]

/-- C2 witness: the theorem applied at the concrete limits 0 and 2. -/
theorem mkInferenceModel_validates_limit_witness :
    mkInferenceModel 0
      = Except.error (ZooError.configurationError
          "supported_concurrent_num must be at least 1")
  ∧ mkInferenceModel 2 = Except.ok ⟨2, BackendState.unloaded⟩ :=
  ⟨(mkInferenceModel_validates_limit 0).1 (by norm_num),
   (mkInferenceModel_validates_limit 2).2 (by norm_num)⟩

/-- C3: a load on an `Unloaded` handle binds the backend; any second load
on a `Loaded` handle fails with `AlreadyLoadedError`, and the handle —
which the failing operation returns unchanged to its caller — still
carries the originally bound backend. -/
theorem loadBackend_binds_once (h : ModelHandle) (k j : BackendKind) :
    (h.backend_state = BackendState.unloaded →
       h.loadBackend k = Except.ok ⟨h.concurrency_limit, BackendState.loaded k⟩)
  ∧ (h.backend_state = BackendState.loaded j →
       h.loadBackend k = Except.error ZooError.alreadyLoadedError
         ∧ h.backend_state = BackendState.loaded j) := by
  constructor
  · intro hu
    simp [ModelHandle.loadBackend, hu]
  · intro hl
    exact ⟨by simp [ModelHandle.loadBackend, hl], hl⟩

/-- C3 witness: the theorem applied to a concrete unloaded handle and to
a concrete handle already bound to the TensorFlow backend. -/
theorem loadBackend_binds_once_witness :
    ModelHandle.loadBackend ⟨1, BackendState.unloaded⟩ BackendKind.tensorFlowKind
      = Except.ok ⟨1, BackendState.loaded BackendKind.tensorFlowKind⟩
  ∧ (ModelHandle.loadBackend ⟨1, BackendState.loaded BackendKind.tensorFlowKind⟩
        BackendKind.openVINOKind
      = Except.error ZooError.alreadyLoadedError
    ∧ (⟨1, BackendState.loaded BackendKind.tensorFlowKind⟩ : ModelHandle).backend_state
        = BackendState.loaded BackendKind.tensorFlowKind) :=
  ⟨(loadBackend_binds_once ⟨1, BackendState.unloaded⟩ BackendKind.tensorFlowKind
      BackendKind.caffeKind).1 rfl,
   (loadBackend_binds_once ⟨1, BackendState.loaded BackendKind.tensorFlowKind⟩
      BackendKind.openVINOKind BackendKind.tensorFlowKind).2 rfl⟩

/-- C4: `predict` on an `Unloaded` handle fails with `NotLoadedError` for
every input, single value or sequence, and forwards no gateway call
(the error result carries no engine call). -/
theorem predictGate_requires_loaded {A : Type} (h : ModelHandle)
    (inputs : PredictIn A) (hu : h.backend_state = BackendState.unloaded) :
    h.predictGate inputs = Except.error ZooError.notLoadedError := by
  simp [ModelHandle.predictGate, hu]

/-- C4 witness: the theorem applied to a concrete unloaded handle, a
single input and a sequence input. -/
theorem predictGate_requires_loaded_witness :
    (⟨1, BackendState.unloaded⟩ : ModelHandle).predictGate (PredictIn.single (0 : ℕ))
      = Except.error ZooError.notLoadedError
  ∧ (⟨1, BackendState.unloaded⟩ : ModelHandle).predictGate (PredictIn.seq ([] : List ℕ))
      = Except.error ZooError.notLoadedError :=
  ⟨predictGate_requires_loaded ⟨1, BackendState.unloaded⟩ (PredictIn.single 0) rfl,
   predictGate_requires_loaded ⟨1, BackendState.unloaded⟩ (PredictIn.seq []) rfl⟩

/-- C5: a backend whose lower-cased form is none of "tensorflow", "tf",
"openvino", "ov" makes `load_tf` fail with `UnsupportedBackendError` and
forward nothing; the tensorflow aliases produce the TensorFlow load call,
and the openvino aliases enter the openvino branch: every error it raises
is a `ConfigurationError` and every forwarded call is the
`inferenceModelOpenVINOLoadTF` command. -/
theorem load_tf_backend_dispatch (mp b : String) (i1 i2 : Int) (u : Bool)
    (mt pcp ecp : Option String) :
    (pyLower b ≠ "tensorflow" → pyLower b ≠ "tf" →
     pyLower b ≠ "openvino" → pyLower b ≠ "ov" →
       load_tf mp b i1 i2 u mt pcp ecp
         = Except.error (ZooError.unsupportedBackendError
             "Currently only tensorflow and openvino are supported as backend"))
  ∧ ((pyLower b = "tensorflow" ∨ pyLower b = "tf") →
       load_tf mp b i1 i2 u mt pcp ecp
         = Except.ok ⟨"inferenceModelTensorFlowLoadTF",
             [PyVal.pyStr mp, PyVal.pyInt i1, PyVal.pyInt i2, PyVal.pyBool u]⟩)
  ∧ ((pyLower b = "openvino" ∨ pyLower b = "ov") →
       (∀ e, load_tf mp b i1 i2 u mt pcp ecp = Except.error e →
          ∃ msg, e = ZooError.configurationError msg)
     ∧ (∀ c, load_tf mp b i1 i2 u mt pcp ecp = Except.ok c →
          c.method = "inferenceModelOpenVINOLoadTF")) := by
  refine ⟨fun h1 h2 h3 h4 => ?_, fun h => ?_, fun h => ⟨fun e he => ?_, fun c hc => ?_⟩⟩
  · simp [load_tf, h1, h2, h3, h4]
  · rcases h with h | h <;> simp [load_tf, h]
  · rcases h with h | h <;>
    · simp only [load_tf, h] at he
      rw [if_neg (by decide), if_pos (by decide)] at he
      split at he <;> split at he <;> simp at he
      exact ⟨_, he.symm⟩
  · rcases h with h | h <;>
    · simp only [load_tf, h] at hc
      rw [if_neg (by decide), if_pos (by decide)] at hc
      split at hc <;> split at hc <;> simp at hc <;> subst hc <;> rfl

/-- C5 witness: an unsupported backend fails, and a tensorflow alias is
accepted, at concrete inputs. -/
theorem load_tf_backend_dispatch_witness :
    load_tf "m" "mxnet" 1 1 true Option.none Option.none Option.none
      = Except.error (ZooError.unsupportedBackendError
          "Currently only tensorflow and openvino are supported as backend")
  ∧ load_tf "m" "TF" 1 1 true Option.none Option.none Option.none
      = Except.ok ⟨"inferenceModelTensorFlowLoadTF",
          [PyVal.pyStr "m", PyVal.pyInt 1, PyVal.pyInt 1, PyVal.pyBool true]⟩
  ∧ ∃ msg, ZooError.configurationError
       "For openvino backend, you must provide either model_type or both pipeline_config_path and extensions_config_path"
       = ZooError.configurationError msg :=
  ⟨(load_tf_backend_dispatch "m" "mxnet" 1 1 true
      Option.none Option.none Option.none).1
      (by decide) (by decide) (by decide) (by decide),
   (load_tf_backend_dispatch "m" "TF" 1 1 true
      Option.none Option.none Option.none).2.1 (Or.inr (by decide)),
   ((load_tf_backend_dispatch "m" "ov" 1 1 true
      Option.none Option.none Option.none).2.2 (Or.inr (by decide))).1
     (ZooError.configurationError
       "For openvino backend, you must provide either model_type or both pipeline_config_path and extensions_config_path")
     rfl⟩

/-- C6: `load_tf` with backend "TF" and with backend "tensorflow" (and
"OV" versus "openvino") forward identical engine calls, for every model
path and every setting of the remaining parameters. -/
theorem load_tf_alias_case_insensitive (mp : String) (i1 i2 : Int) (u : Bool)
    (mt pcp ecp : Option String) :
    load_tf mp "TF" i1 i2 u mt pcp ecp = load_tf mp "tensorflow" i1 i2 u mt pcp ecp
  ∧ load_tf mp "OV" i1 i2 u mt pcp ecp = load_tf mp "openvino" i1 i2 u mt pcp ecp :=
  ⟨rfl, rfl⟩

/-- C7: in the tensorflow branch the forwarded engine call does not depend
on `model_type`, `ov_pipeline_config_path` or `ov_extensions_config_path`:
two calls agreeing on the model path and the threading parameters but
differing arbitrarily in the OpenVINO-only parameters forward the same
call. -/
theorem load_tf_tensorflow_ignores_ov_params (mp b : String) (i1 i2 : Int) (u : Bool)
    (mt mt2 pcp pcp2 ecp ecp2 : Option String)
    (h : pyLower b = "tensorflow" ∨ pyLower b = "tf") :
    load_tf mp b i1 i2 u mt pcp ecp = load_tf mp b i1 i2 u mt2 pcp2 ecp2 := by
  rcases h with h | h <;> simp [load_tf, h]

/-- C7 witness: the theorem applied at backend "TF" with maximally
different OpenVINO-only parameters. -/
theorem load_tf_tensorflow_ignores_ov_params_witness :
    load_tf "m" "TF" 2 3 false (Option.some "t") (Option.some "p") (Option.some "e")
      = load_tf "m" "TF" 2 3 false Option.none Option.none Option.none :=
  load_tf_tensorflow_ignores_ov_params "m" "TF" 2 3 false
    (Option.some "t") Option.none (Option.some "p") Option.none
    (Option.some "e") Option.none (Or.inr (by decide))

/-- C10: `model_type` is tested for Python truthiness, not for having been
supplied: with backend normalizing to openvino, `model_type` equal to the
empty string and both config paths absent, `load_tf` takes the
no-model_type branch and fails with the configuration error rather than
building a model_type-keyed engine call. -/
theorem load_tf_empty_model_type_is_falsy (mp b : String) (i1 i2 : Int) (u : Bool)
    (h : pyLower b = "openvino" ∨ pyLower b = "ov") :
    load_tf mp b i1 i2 u (Option.some "") Option.none Option.none
      = Except.error (ZooError.configurationError
          "For openvino backend, you must provide either model_type or both pipeline_config_path and extensions_config_path") := by
  rcases h with h | h <;> simp [load_tf, pyTruthy, h]

/-- C10 witness: the theorem applied at the concrete backend "OV". -/
theorem load_tf_empty_model_type_is_falsy_witness :
    load_tf "m" "OV" 1 1 true (Option.some "") Option.none Option.none
      = Except.error (ZooError.configurationError
          "For openvino backend, you must provide either model_type or both pipeline_config_path and extensions_config_path") :=
  load_tf_empty_model_type_is_falsy "m" "OV" 1 1 true (Or.inr (by decide))

/-- C8: when some element of `mean_values` or the `scale` fails the float
coercion, both `load_tf_as_calibrated_openvino` and
`load_tf_image_classification_as_openvino` fail with `ConfigurationError`
and forward no engine call; when all coerce, the forwarded calibrated
request carries the coerced values, pointwise in the original order. -/
theorem calibrated_openvino_float_coercion {A : Type} (pyfloat : A → Option Rat)
    (mp mt cp : String) (ishape : List Int) (rev : Bool)
    (mv : List A) (sc : A) (nt vfp sub ocv : String) :
    (((∃ x ∈ mv, pyfloat x = Option.none) ∨ pyfloat sc = Option.none) →
       load_tf_as_calibrated_openvino pyfloat mp mt cp ishape rev mv sc nt vfp sub ocv
         = Except.error (ZooError.configurationError "could not convert value to float")
     ∧ load_tf_image_classification_as_openvino pyfloat mp mt cp ishape rev mv sc
         = Except.error (ZooError.configurationError "could not convert value to float"))
  ∧ (∀ ms q, pyFloats pyfloat mv = Option.some ms → pyfloat sc = Option.some q →
       load_tf_as_calibrated_openvino pyfloat mp mt cp ishape rev mv sc nt vfp sub ocv
         = Except.ok ⟨"inferenceModelOpenVINOLoadTFAsCalibratedOpenVINO",
             [PyVal.pyStr mp, PyVal.pyStr mt, PyVal.pyStr cp, PyVal.pyIntList ishape,
              PyVal.pyBool rev, PyVal.pyFloatList ms, PyVal.pyFloat q,
              PyVal.pyStr nt, PyVal.pyStr vfp, PyVal.pyStr sub, PyVal.pyStr ocv]⟩
     ∧ load_tf_image_classification_as_openvino pyfloat mp mt cp ishape rev mv sc
         = Except.ok ⟨"inferenceModelOpenVINOLoadTF",
             [PyVal.pyStr mp, PyVal.pyStr mt, PyVal.pyStr cp, PyVal.pyIntList ishape,
              PyVal.pyBool rev, PyVal.pyFloatList ms, PyVal.pyFloat q]⟩
     ∧ ∀ i : ℕ, ms.get? i = (mv.get? i).bind pyfloat) := by
  constructor
  · intro hbad
    rcases hbad with hmv | hsc
    · have hnone : pyFloats pyfloat mv = Option.none :=
        (pyFloats_eq_none_iff pyfloat mv).2 hmv
      constructor <;>
        simp [load_tf_as_calibrated_openvino,
          load_tf_image_classification_as_openvino, hnone]
    · cases hmv : pyFloats pyfloat mv <;>
        constructor <;>
        simp [load_tf_as_calibrated_openvino,
          load_tf_image_classification_as_openvino, hmv, hsc]
  · intro ms q h1 h2
    exact ⟨by simp [load_tf_as_calibrated_openvino, h1, h2],
           by simp [load_tf_image_classification_as_openvino, h1, h2],
           fun i => pyFloats_get pyfloat mv ms h1 i⟩

/-- C8 witness: with the identity coercion on optional rationals (a model
of `float` succeeding on "0.1" and failing on "abc"), a list with one
non-coercible element fails with the configuration error in both loaders,
and an all-coercible list forwards the coerced values in both loaders. -/
theorem calibrated_openvino_float_coercion_witness :
    load_tf_as_calibrated_openvino (fun x : Option Rat => x) "m" "t" "c" [2] true
        [Option.some ((1 : Rat)/10), Option.none] (Option.some 1) "C" "v" "10" "o"
      = Except.error (ZooError.configurationError "could not convert value to float")
  ∧ load_tf_as_calibrated_openvino (fun x : Option Rat => x) "m" "t" "c" [2] true
        [Option.some ((1 : Rat)/10)] (Option.some 1) "C" "v" "10" "o"
      = Except.ok ⟨"inferenceModelOpenVINOLoadTFAsCalibratedOpenVINO",
          [PyVal.pyStr "m", PyVal.pyStr "t", PyVal.pyStr "c", PyVal.pyIntList [2],
           PyVal.pyBool true, PyVal.pyFloatList [(1 : Rat)/10], PyVal.pyFloat 1,
           PyVal.pyStr "C", PyVal.pyStr "v", PyVal.pyStr "10", PyVal.pyStr "o"]⟩
  ∧ load_tf_image_classification_as_openvino (fun x : Option Rat => x) "m" "t" "c" [2] true
        [Option.some ((1 : Rat)/10)] (Option.some 1)
      = Except.ok ⟨"inferenceModelOpenVINOLoadTF",
          [PyVal.pyStr "m", PyVal.pyStr "t", PyVal.pyStr "c", PyVal.pyIntList [2],
           PyVal.pyBool true, PyVal.pyFloatList [(1 : Rat)/10], PyVal.pyFloat 1]⟩ :=
  ⟨((calibrated_openvino_float_coercion (fun x : Option Rat => x) "m" "t" "c" [2] true
      [Option.some ((1 : Rat)/10), Option.none] (Option.some 1) "C" "v" "10" "o").1
      (Or.inl ⟨Option.none, by simp, rfl⟩)).1,
   ((calibrated_openvino_float_coercion (fun x : Option Rat => x) "m" "t" "c" [2] true
      [Option.some ((1 : Rat)/10)] (Option.some 1) "C" "v" "10" "o").2
      [(1 : Rat)/10] 1 rfl rfl).1,
   ((calibrated_openvino_float_coercion (fun x : Option Rat => x) "m" "t" "c" [2] true
      [Option.some ((1 : Rat)/10)] (Option.some 1) "C" "v" "10" "o").2
      [(1 : Rat)/10] 1 rfl rfl).2.1⟩

/-- C9: in the admission-gate transition system of capacity N, every
reachable in-flight count is at most N; an acquire step exists only below
capacity, so the (N+1)th concurrent caller takes no step (blocks, does
not fail) while N calls are in flight, and is admitted only after a free
step — available on every exit path — lowers the count. -/
theorem admission_gate_bounds (N : ℕ) :
    (∀ k, gateReach N k → k ≤ N)
  ∧ (∀ k j, gateStep N k GateLabel.gateAcquire j → k < N ∧ j = k + 1)
  ∧ (∀ k j, N ≤ k → ¬ gateStep N k GateLabel.gateAcquire j)
  ∧ (∀ k, gateStep N (k + 1) GateLabel.gateFree k) := by
  refine ⟨?_, ?_, ?_, ?_⟩
  · intro k hreach
    induction hreach with
    | init => exact Nat.zero_le N
    | step hr hs ih =>
      cases hs with
      | enter hlt => omega
      | finish => omega
  · intro k j hs
    cases hs with
    | enter hlt => exact ⟨hlt, rfl⟩
  · intro k j hk hs
    cases hs with
    | enter hlt => omega
  · intro k
    exact gateStep.finish

/-- C9 witness: with capacity 2, the state reached by one admission is
within the bound, and no acquire step leaves the full state. -/
theorem admission_gate_bounds_witness :
    (1 : ℕ) ≤ 2 ∧ ¬ gateStep 2 2 GateLabel.gateAcquire 3 :=
  ⟨(admission_gate_bounds 2).1 1
     (gateReach.step gateReach.init (gateStep.enter (by norm_num))),
   (admission_gate_bounds 2).2.2.1 2 3 (le_refl 2)⟩

end AnalyticsZoo
